import Mathlib

/-!
Verification of the Ahrie AI chatbot repository (pcepyon/Ahrie_AI).

This file gives a shallow embedding, in Lean 4, of the pure routing,
classification, formatting and fallback logic of the repository, and proves
the claims of the natural-language specification against it.

Conventions of the embedding:
- Python dictionaries with a known key set become Lean structures; dictionaries
  used with dynamic keys become association lists with a first-match lookup.
- Python `str.lower()` is modelled by `pyLower`, ASCII case folding applied
  per character (the keyword tables involved contain only ASCII, Hangul and
  Arabic text, on which full Unicode folding and ASCII folding agree).
- Python `needle in haystack` on strings is modelled by `pyIn`, contiguous
  substring containment.
- A `try ... except` body whose interior calls remote services is modelled by
  an `Except String` argument: `.ok v` is a normal return of the body with
  value `v`, `.error e` is a raised exception whose `str(e)` is `e`.
  Timestamps (`datetime.now()`) carried in result metadata are elided.
-/

/-- Containment of `needle` as a contiguous sublist of the second argument:
checked by testing whether `needle` is a prefix of each successive suffix. -/
def listContainsSub (needle : List Char) : List Char → Bool
  | [] => needle.isEmpty
  | c :: rest => needle.isPrefixOf (c :: rest) || listContainsSub needle rest

/-- Python string membership `needle in haystack`: true exactly when `needle`
occurs contiguously in `haystack` (and always for the empty needle). -/
def pyIn (needle haystack : String) : Bool :=
  listContainsSub needle.data haystack.data

/-- Python `str.lower()`, modelled as per-character ASCII case folding. -/
def pyLower (s : String) : String :=
  String.mk (s.data.map Char.toLower)

/- ------------------------------------------------------------------
src/agents/team_orchestrator_v2.py  (AhrieTeamOrchestratorV2)
------------------------------------------------------------------ -/

/-- The `intent_keywords` table of `AhrieTeamOrchestratorV2._analyze_query_intent`,
in its Python insertion order. -/
def intent_keywords : List (String × List String) :=
  [("medical", ["surgery", "procedure", "doctor", "clinic", "cost", "nose", "eye", "수술", "의사", "병원"]),
   ("cultural", ["halal", "حلال", "prayer", "صلاة", "mosque", "muslim", "islamic", "ramadan"]),
   ("review", ["review", "experience", "youtube", "video", "후기", "리뷰", "تجربة", "مراجعة"]),
   ("location", ["near", "gangnam", "seoul", "where", "location", "강남", "서울", "أين"]),
   ("female_specific", ["female doctor", "여의사", "طبيبة", "woman", "lady", "sister"])]

/-- The `detected_intents` list computed by
`AhrieTeamOrchestratorV2._analyze_query_intent`: the query is lowercased and a
tag is appended, in table order, when any of its keywords occurs in it. -/
def analyze_query_intent (query : String) : List String :=
  (intent_keywords.filter
    (fun p => p.2.any (fun kw => pyIn kw (pyLower query)))).map Prod.fst

/-- The `positive_words` table of
`AhrieTeamOrchestratorV2._analyze_review_sentiment`. -/
def positive_words : List String :=
  ["excellent", "amazing", "satisfied", "happy", "recommend"]

/-- The `negative_words` table of
`AhrieTeamOrchestratorV2._analyze_review_sentiment`. -/
def negative_words : List String :=
  ["disappointed", "painful", "expensive", "regret", "poor"]

/-- Python `sum(1 for word in words if word in review_text.lower())`: the number
of table entries occurring in the lowercased text. -/
def sentiment_count (words : List String) (review_text : String) : Nat :=
  (words.filter (fun w => pyIn w (pyLower review_text))).length

/-- The body of `AhrieTeamOrchestratorV2._analyze_review_sentiment`. -/
def analyze_review_sentiment (review_text : String) : String :=
  if sentiment_count positive_words review_text > sentiment_count negative_words review_text then
    "Positive sentiment detected"
  else if sentiment_count negative_words review_text > sentiment_count positive_words review_text then
    "Negative sentiment detected"
  else
    "Neutral sentiment"

/- ------------------------------------------------------------------
Helper lemmas about keyed filter tables
------------------------------------------------------------------ -/

/-- Membership in the projection of a filtered keyed table: when the keys of
the table are distinct, a key appears among the first components of the
filtered table exactly when its row satisfies the predicate. -/
theorem mem_map_fst_filter {α β : Type} (p : α × β → Bool)
    (l : List (α × β)) (a : α) (b : β)
    (hnd : (l.map Prod.fst).Nodup) (hmem : (a, b) ∈ l) :
    (a ∈ (l.filter p).map Prod.fst ↔ p (a, b) = true) := by
  revert hnd hmem
  induction l with
  | nil => intro _ hmem; cases hmem
  | cons hd tl ih =>
    intro hnd hmem
    rw [List.map_cons, List.nodup_cons] at hnd
    obtain ⟨hnotin, hndtl⟩ := hnd
    rcases List.mem_cons.mp hmem with heq | htl
    · subst heq
      by_cases hp : p (a, b) = true
      · simp [List.filter_cons, hp]
      · rw [List.filter_cons, if_neg hp]
        constructor
        · intro hcontra
          exfalso
          rw [List.mem_map] at hcontra
          obtain ⟨pr, hpr, hfst⟩ := hcontra
          have h1 : pr ∈ tl := (List.mem_filter.mp hpr).1
          have h2 : pr.1 ∈ tl.map Prod.fst := List.mem_map_of_mem Prod.fst h1
          rw [hfst] at h2
          exact hnotin h2
        · intro hc
          exact absurd hc hp
    · have hane : a ≠ hd.1 := by
        intro hcontra
        have h2 : a ∈ tl.map Prod.fst := List.mem_map_of_mem Prod.fst htl
        rw [hcontra] at h2
        exact hnotin h2
      rw [List.filter_cons]
      by_cases hp : p hd = true
      · rw [if_pos hp, List.map_cons, List.mem_cons, ih hndtl htl]
        exact or_iff_right hane
      · rw [if_neg hp]
        exact ih hndtl htl

/-- C1: the intent classifier of the team orchestrator produces tags drawn
exactly from the five-element tag set, and a tag is reported if and only if
one of its keywords occurs as a substring of the lowercased query. -/
theorem analyze_query_intent_spec (query : String) :
    (∀ tag, tag ∈ analyze_query_intent query →
      tag ∈ ["medical", "cultural", "review", "location", "female_specific"]) ∧
    (∀ tag kws, (tag, kws) ∈ intent_keywords →
      (tag ∈ analyze_query_intent query ↔
        kws.any (fun kw => pyIn kw (pyLower query)) = true)) := by
  constructor
  · intro tag htag
    have hmem : tag ∈ intent_keywords.map Prod.fst := by
      simp only [analyze_query_intent, List.mem_map] at htag
      obtain ⟨pr, hpr, hfst⟩ := htag
      exact hfst ▸ List.mem_map_of_mem Prod.fst (List.mem_filter.mp hpr).1
    simpa [intent_keywords] using hmem
  · intro tag kws hmem
    have h := mem_map_fst_filter
      (fun p => p.2.any (fun kw => pyIn kw (pyLower query)))
      intent_keywords tag kws (by decide) hmem
    simpa [analyze_query_intent] using h

/-- Witness for C1 at a concrete query: "Nose surgery cost?" is tagged
medical (keyword "surgery") and not cultural. -/
theorem analyze_query_intent_spec_witness :
    "medical" ∈ analyze_query_intent "Nose surgery cost?" ∧
    "cultural" ∉ analyze_query_intent "Nose surgery cost?" := by
  have h := analyze_query_intent_spec "Nose surgery cost?"
  constructor
  · exact (h.2 "medical"
      ["surgery", "procedure", "doctor", "clinic", "cost", "nose", "eye", "수술", "의사", "병원"]
      (by decide)).mpr (by decide)
  · intro hc
    have hx := (h.2 "cultural"
      ["halal", "حلال", "prayer", "صلاة", "mosque", "muslim", "islamic", "ramadan"]
      (by decide)).mp hc
    exact absurd hx (by decide)

/-- C4: the sentiment tool answers "Positive sentiment detected" exactly when
the positive keyword count strictly exceeds the negative one, "Negative
sentiment detected" exactly in the converse strict case, and "Neutral
sentiment" exactly when the counts are equal. -/
theorem analyze_review_sentiment_spec (review_text : String) :
    (analyze_review_sentiment review_text = "Positive sentiment detected" ↔
      sentiment_count positive_words review_text > sentiment_count negative_words review_text) ∧
    (analyze_review_sentiment review_text = "Negative sentiment detected" ↔
      sentiment_count negative_words review_text > sentiment_count positive_words review_text) ∧
    (analyze_review_sentiment review_text = "Neutral sentiment" ↔
      sentiment_count positive_words review_text = sentiment_count negative_words review_text) := by
  set p := sentiment_count positive_words review_text with hp
  set n := sentiment_count negative_words review_text with hn
  unfold analyze_review_sentiment
  rw [← hp, ← hn]
  by_cases h1 : p > n
  · rw [if_pos h1]
    refine ⟨⟨fun _ => h1, fun _ => rfl⟩, ?_, ?_⟩
    · exact ⟨fun hc => absurd hc (by decide), fun h2 => absurd h1 (by omega)⟩
    · exact ⟨fun hc => absurd hc (by decide), fun h2 => absurd h1 (by omega)⟩
  · rw [if_neg h1]
    by_cases h2 : n > p
    · rw [if_pos h2]
      refine ⟨?_, ⟨fun _ => h2, fun _ => rfl⟩, ?_⟩
      · exact ⟨fun hc => absurd hc (by decide), fun h3 => absurd h3 h1⟩
      · exact ⟨fun hc => absurd hc (by decide), fun h3 => absurd h2 (by omega)⟩
    · rw [if_neg h2]
      refine ⟨?_, ?_, ⟨fun _ => by omega, fun _ => rfl⟩⟩
      · exact ⟨fun hc => absurd hc (by decide), fun h3 => absurd h3 h1⟩
      · exact ⟨fun hc => absurd hc (by decide), fun h3 => absurd h3 h2⟩

/-- Witness for C4 at concrete reviews: one positive, one negative, one
neutral. -/
theorem analyze_review_sentiment_spec_witness :
    analyze_review_sentiment "Amazing clinic, very satisfied" = "Positive sentiment detected" ∧
    analyze_review_sentiment "Expensive and painful, I regret it" = "Negative sentiment detected" ∧
    analyze_review_sentiment "It was fine" = "Neutral sentiment" := by
  refine ⟨?_, ?_, ?_⟩
  · exact (analyze_review_sentiment_spec "Amazing clinic, very satisfied").1.mpr (by decide)
  · exact (analyze_review_sentiment_spec "Expensive and painful, I regret it").2.1.mpr (by decide)
  · exact (analyze_review_sentiment_spec "It was fine").2.2.mpr (by decide)

/- ------------------------------------------------------------------
src/agents/coordinator.py  (CoordinatorAgent)
------------------------------------------------------------------ -/

/-- Character test of `CoordinatorAgent._detect_language`: code point in the
Arabic block U+0600 to U+06FF. -/
def in_arabic_block (c : Char) : Bool :=
  decide (0x0600 ≤ c.toNat) && decide (c.toNat ≤ 0x06FF)

/-- Character test of `CoordinatorAgent._detect_language`: code point in the
Hangul-syllable block U+AC00 to U+D7AF. -/
def in_hangul_block (c : Char) : Bool :=
  decide (0xAC00 ≤ c.toNat) && decide (c.toNat ≤ 0xD7AF)

/-- The body of `CoordinatorAgent._detect_language`: "ar" when any character is
in the Arabic block, otherwise "ko" when any character is in the
Hangul-syllable block, otherwise "en". -/
def detect_language (text : String) : String :=
  if text.data.any in_arabic_block then "ar"
  else if text.data.any in_hangul_block then "ko"
  else "en"

/-- The `intents` keyword table of `CoordinatorAgent.analyze_intent`, in its
Python insertion order. -/
def coordinator_intents : List (String × List String) :=
  [("medical_consultation", ["procedures", "surgery", "treatment", "clinic", "doctor"]),
   ("review_inquiry", ["review", "experience", "youtube", "video", "testimonial"]),
   ("cultural_guidance", ["halal", "prayer", "islamic", "culture", "arab", "saudi", "uae"]),
   ("general_inquiry", ["price", "cost", "duration", "location", "booking"])]

/-- The result dictionary of `CoordinatorAgent.analyze_intent`. -/
structure IntentAnalysis where
  intents : List String
  requires_translation : Bool
  deriving DecidableEq

/-- The body of `CoordinatorAgent.analyze_intent`: keyword scan over the
lowercased message, falling back to the singleton `["general_inquiry"]` when
nothing matched, plus the translation flag from `_detect_language`. -/
def analyze_intent (message : String) : IntentAnalysis :=
  let detected := (coordinator_intents.filter
    (fun p => p.2.any (fun kw => pyIn kw (pyLower message)))).map Prod.fst
  { intents := if detected.isEmpty then ["general_inquiry"] else detected
    requires_translation := detect_language message != "en" }

/-- C6: the language detector returns only "ar", "ko" or "en"; it answers "ar"
exactly when some character lies in the Arabic block, "ko" exactly when none
does but some character lies in the Hangul-syllable block, "en" exactly when
neither block is hit; and `analyze_intent` requires translation exactly when
the detected language of the message is not "en". -/
theorem detect_language_spec (text message : String) :
    (detect_language text = "ar" ∨ detect_language text = "ko" ∨ detect_language text = "en") ∧
    (detect_language text = "ar" ↔
      ∃ c ∈ text.data, 0x0600 ≤ c.toNat ∧ c.toNat ≤ 0x06FF) ∧
    (detect_language text = "ko" ↔
      ((¬ ∃ c ∈ text.data, 0x0600 ≤ c.toNat ∧ c.toNat ≤ 0x06FF) ∧
       ∃ c ∈ text.data, 0xAC00 ≤ c.toNat ∧ c.toNat ≤ 0xD7AF)) ∧
    (detect_language text = "en" ↔
      ((¬ ∃ c ∈ text.data, 0x0600 ≤ c.toNat ∧ c.toNat ≤ 0x06FF) ∧
       (¬ ∃ c ∈ text.data, 0xAC00 ≤ c.toNat ∧ c.toNat ≤ 0xD7AF))) ∧
    ((analyze_intent message).requires_translation = true ↔
      detect_language message ≠ "en") := by
  have har : text.data.any in_arabic_block = true ↔
      ∃ c ∈ text.data, 0x0600 ≤ c.toNat ∧ c.toNat ≤ 0x06FF := by
    simp [List.any_eq_true, in_arabic_block]
  have hko : text.data.any in_hangul_block = true ↔
      ∃ c ∈ text.data, 0xAC00 ≤ c.toNat ∧ c.toNat ≤ 0xD7AF := by
    simp [List.any_eq_true, in_hangul_block]
  refine ⟨?_, ?_, ?_, ?_, ?_⟩
  all_goals
    first
    | (unfold detect_language
       by_cases h1 : text.data.any in_arabic_block = true
       · rw [if_pos h1]
         simp_all
       · rw [if_neg h1]
         by_cases h2 : text.data.any in_hangul_block = true
         · rw [if_pos h2]
           simp_all
         · rw [if_neg h2]
           simp_all)
    | (simp [analyze_intent, bne_iff_ne])

/-- Witness for C6 at concrete inputs: Arabic, Korean and English texts, and
the translation flag on a Korean message. -/
theorem detect_language_spec_witness :
    detect_language "مرحبا" = "ar" ∧
    detect_language "안녕하세요" = "ko" ∧
    detect_language "hello" = "en" ∧
    (analyze_intent "안녕하세요").requires_translation = true := by
  refine ⟨?_, ?_, ?_, ?_⟩
  · exact (detect_language_spec "مرحبا" "x").2.1.mpr (by decide)
  · exact (detect_language_spec "안녕하세요" "x").2.2.1.mpr (by decide)
  · exact (detect_language_spec "hello" "x").2.2.2.1.mpr (by decide)
  · exact (detect_language_spec "x" "안녕하세요").2.2.2.2.mpr (by decide)

/-- C9: `CoordinatorAgent.analyze_intent` never reports zero intents: the
intents list is non-empty for every message, and when no keyword of any
category occurs in the lowercased message it is exactly
`["general_inquiry"]`. -/
theorem analyze_intent_nonempty (message : String) :
    (analyze_intent message).intents ≠ [] ∧
    ((∀ p ∈ coordinator_intents, ∀ kw ∈ p.2, pyIn kw (pyLower message) = false) →
      (analyze_intent message).intents = ["general_inquiry"]) := by
  constructor
  · simp only [analyze_intent]
    cases hd : (coordinator_intents.filter
        (fun p => p.2.any (fun kw => pyIn kw (pyLower message)))).map Prod.fst with
    | nil => simp
    | cons x xs => simp
  · intro hall
    have hfil : coordinator_intents.filter
        (fun p => p.2.any (fun kw => pyIn kw (pyLower message))) = [] := by
      rw [List.filter_eq_nil_iff]
      intro p hp
      simp only [Bool.not_eq_true, List.any_eq_false]
      intro kw hkw
      exact hall p hp kw hkw
    simp [analyze_intent, hfil]

/-- Witness for C9: "hello there" matches no coordinator keyword and the
intents list degenerates to the general-inquiry singleton. -/
theorem analyze_intent_nonempty_witness :
    (analyze_intent "hello there").intents = ["general_inquiry"] :=
  (analyze_intent_nonempty "hello there").2 (by decide)

/- ------------------------------------------------------------------
src/agents/coordinator.py  (response aggregation and formatting)
------------------------------------------------------------------ -/

/-- A per-agent response fragment: a Python dict in which only the optional
"content" entry is read by the formatting helpers. -/
structure AgentData where
  content : Option String
  deriving DecidableEq

/-- First-match lookup in an association list, modelling Python dict access
(dict keys are unique, so first match is the match). -/
def dictLookup {α : Type} (d : List (String × α)) (k : String) : Option α :=
  (d.find? (fun p => p.1 == k)).map Prod.snd

/-- The reply of `CoordinatorAgent._format_response` when the result is falsy
or not a dict. -/
def invalid_result_reply : String :=
  "어머, 죄송해요! 😢 제가 잠시 헷갈렸나봐요. 다시 한 번 말씀해주시면 더 잘 도와드릴게요!"

/-- The reply of `CoordinatorAgent._format_response` when the result carries
no data at all. -/
def no_data_reply : String :=
  "안녕하세요! K-뷰티 의료 관광에 관심을 가져주셔서 정말 감사해요! 💕\n\n여러분의 아름다운 변화를 위한 여정을 도와드릴 수 있어서 기뻐요. 어떤 것이든 편하게 물어보세요!\n\n제가 도와드릴 수 있는 것들이에요:\n• 🏥 의료 시술 정보 (코성형, 안면윤곽, 가슴성형 등)\n• 👩‍⚕️ 믿을 수 있는 클리닉과 의사 추천\n• 🕌 할랄 레스토랑과 기도실 정보\n• ⭐ 실제 환자분들의 리뷰와 경험담\n• 💰 가격 정보와 여행 팁\n\n어떤 것부터 도와드릴까요? 여러분의 이야기를 들려주세요! 😊"

/-- The reply of `CoordinatorAgent._format_response` when data is present but
none of the three known agent keys is. -/
def empty_responses_reply : String :=
  "여러분의 K-뷰티 여정을 어떻게 도와드릴까요? 무엇이든 편하게 물어보세요! 💖"

/-- The body of `CoordinatorAgent._format_medical_data`. -/
def format_medical_data (d : AgentData) : String :=
  match d.content with
  | some c => c
  | none => "의료 정보를 준비하고 있어요! 곧 자세한 내용을 알려드릴게요. 😊"

/-- The body of `CoordinatorAgent._format_review_data`. -/
def format_review_data (d : AgentData) : String :=
  match d.content with
  | some c => c
  | none => "다른 분들의 경험담을 찾아보고 있어요! 실제 후기들을 곧 보여드릴게요. ⭐"

/-- The body of `CoordinatorAgent._format_cultural_data`. -/
def format_cultural_data (d : AgentData) : String :=
  match d.content with
  | some c => c
  | none => "문화적인 정보를 준비하고 있어요! 편안한 한국 여행이 되도록 도와드릴게요. 🕌"

/-- The aggregated result dictionary built by
`CoordinatorAgent._aggregate_responses` and consumed by `_format_response`. -/
structure AggResult where
  status : String
  data : List (String × AgentData)
  response_type : String

/-- The body of `CoordinatorAgent._aggregate_responses`. -/
def aggregate_responses (responses : List (String × AgentData)) : AggResult :=
  { status := "success"
    data := responses
    response_type := if responses.length > 1 then "multi_agent" else "single_agent" }

/-- The body of `CoordinatorAgent._format_response`: `none` stands for a falsy
or non-dict result; each branch appends its emoji-decorated section when its
key is present in the data dict, in the fixed order medical, reviews,
cultural, and the sections are joined with blank lines. -/
def format_response (result : Option AggResult) : String :=
  match result with
  | none => invalid_result_reply
  | some r =>
    if r.data.isEmpty then no_data_reply
    else
      let responses :=
        (match dictLookup r.data "medical" with
         | some d => ["🏥 **Medical Information:**\n" ++ format_medical_data d]
         | none => []) ++
        (match dictLookup r.data "reviews" with
         | some d => ["📹 **Reviews & Experiences:**\n" ++ format_review_data d]
         | none => []) ++
        (match dictLookup r.data "cultural" with
         | some d => ["🕌 **Cultural Guidance:**\n" ++ format_cultural_data d]
         | none => [])
      if responses.isEmpty then empty_responses_reply
      else String.intercalate "\n\n" responses

/-- C3: when the aggregated data contains any of the keys medical, reviews,
cultural, `_format_response` returns exactly the present sections, each under
its emoji-decorated header, in the fixed order medical, reviews, cultural
(whatever the dictionary order), joined by blank lines; and
`_aggregate_responses` labels the result multi_agent exactly when more than
one agent responded, single_agent otherwise. -/
theorem format_response_sections (s t : String) (data : List (String × AgentData))
    (h : (dictLookup data "medical").isSome = true ∨
         (dictLookup data "reviews").isSome = true ∨
         (dictLookup data "cultural").isSome = true) :
    format_response (some { status := s, data := data, response_type := t }) =
      String.intercalate "\n\n"
        (((dictLookup data "medical").map
            (fun d => "🏥 **Medical Information:**\n" ++ format_medical_data d)).toList ++
         ((dictLookup data "reviews").map
            (fun d => "📹 **Reviews & Experiences:**\n" ++ format_review_data d)).toList ++
         ((dictLookup data "cultural").map
            (fun d => "🕌 **Cultural Guidance:**\n" ++ format_cultural_data d)).toList) ∧
    (∀ rs : List (String × AgentData),
      ((aggregate_responses rs).response_type = "multi_agent" ↔ 1 < rs.length) ∧
      ((aggregate_responses rs).response_type = "single_agent" ↔ rs.length ≤ 1)) := by
  constructor
  · have hne : data.isEmpty = false := by
      cases data with
      | nil =>
        exfalso
        rcases h with h | h | h <;> simp [dictLookup] at h
      | cons hd tl => rfl
    rcases hm : dictLookup data "medical" with _ | dm <;>
    rcases hr : dictLookup data "reviews" with _ | dr <;>
    rcases hc : dictLookup data "cultural" with _ | dc <;>
      simp_all [format_response, hne]
  · intro rs
    simp only [aggregate_responses]
    by_cases hl : rs.length > 1
    · rw [if_pos hl]
      exact ⟨⟨fun _ => hl, fun _ => rfl⟩,
        ⟨fun hc2 => absurd hc2 (by decide), fun h2 => absurd hl (by omega)⟩⟩
    · rw [if_neg hl]
      exact ⟨⟨fun hc2 => absurd hc2 (by decide), fun h2 => absurd h2 hl⟩,
        ⟨fun _ => by omega, fun _ => rfl⟩⟩

/-- Witness for C3: a data dict listing cultural before medical still formats
medical first, and a two-agent result is labelled multi_agent. -/
theorem format_response_sections_witness :
    format_response (some { status := "success",
                            data := [("cultural", { content := some "C" }),
                                     ("medical", { content := some "M" })],
                            response_type := "multi_agent" }) =
      "🏥 **Medical Information:**\nM\n\n🕌 **Cultural Guidance:**\nC" ∧
    (aggregate_responses [("medical", { content := none }), ("reviews", { content := none })]).response_type
      = "multi_agent" := by
  have h := format_response_sections "success" "multi_agent"
    [("cultural", { content := some "C" }), ("medical", { content := some "M" })]
    (Or.inl (by decide))
  constructor
  · rw [h.1]
    rfl
  · exact (h.2 [("medical", { content := none }), ("reviews", { content := none })]).1.mpr
      (by decide)

/- ------------------------------------------------------------------
Agent process methods: try/except error handling
(src/agents/orchestrator.py, src/agents/coordinator.py,
 src/agents/team_orchestrator_v2.py)
------------------------------------------------------------------ -/

/-- The dictionary returned by an agent process method: the reply content and
the optional "error" entry of its metadata (agent label and timestamp
elided). -/
structure ProcessResult where
  content : String
  error : Option String
  deriving DecidableEq

/-- The canned apology of `OrchestratorAgent.process`. -/
def orchestrator_apology : String :=
  "I apologize, but I encountered an error processing your request. Please try again."

/-- The canned apology of `CoordinatorAgent.process`. -/
def coordinator_apology : String :=
  "앗, 죄송해요! 😔 잠시 문제가 생겼어요. 조금만 기다려주시면 다시 도와드릴게요. 여러분의 소중한 질문을 놓치고 싶지 않아요!"

/-- The English canned apology of `AhrieTeamOrchestratorV2.process`. -/
def team_apology_en : String :=
  "I apologize, but I encountered an error. Please try again."

/-- The Arabic canned apology of `AhrieTeamOrchestratorV2.process`. -/
def team_apology_ar : String :=
  "أعتذر، لقد واجهت خطأ. يرجى المحاولة مرة أخرى."

/-- The try/except shell of `OrchestratorAgent.process`: the body runs the
remote agent and yields the reply content, or raises. -/
def orchestrator_process (body : Except String String) : ProcessResult :=
  match body with
  | .ok content => { content := content, error := none }
  | .error e => { content := orchestrator_apology, error := some e }

/-- The try/except shell of `CoordinatorAgent.process`: the body routes the
query and yields an aggregated result which is then formatted, or raises. -/
def coordinator_process (body : Except String AggResult) : ProcessResult :=
  match body with
  | .ok result => { content := format_response (some result), error := none }
  | .error e => { content := coordinator_apology, error := some e }

/-- The try/except shell of `AhrieTeamOrchestratorV2.process`: the body runs
the team and yields the (possibly translated) reply content, or raises; the
apology is the Arabic one exactly when the given language code is "ar". -/
def team_process (language_code : String) (body : Except String String) : ProcessResult :=
  match body with
  | .ok content => { content := content, error := none }
  | .error e =>
    { content := if language_code = "ar" then team_apology_ar else team_apology_en,
      error := some e }

/-- C2: whenever the body of an agent process method raises, the exception is
not propagated: each of the three process methods returns a result whose
content is its canned apology (the team orchestrator picking the Arabic
variant for language code "ar") and whose metadata records the error
string. -/
theorem process_error_no_propagation (e lang : String) :
    orchestrator_process (Except.error e) =
      { content := orchestrator_apology, error := some e } ∧
    coordinator_process (Except.error e) =
      { content := coordinator_apology, error := some e } ∧
    team_process lang (Except.error e) =
      { content := if lang = "ar" then team_apology_ar else team_apology_en,
        error := some e } :=
  ⟨rfl, rfl, rfl⟩

/-- Witness for C2 at a concrete raised error "boom" and language "ar". -/
theorem process_error_no_propagation_witness :
    (orchestrator_process (Except.error "boom")).content = orchestrator_apology ∧
    (coordinator_process (Except.error "boom")).content = coordinator_apology ∧
    (team_process "ar" (Except.error "boom")).content = team_apology_ar ∧
    (team_process "ar" (Except.error "boom")).error = some "boom" := by
  have h := process_error_no_propagation "boom" "ar"
  refine ⟨by rw [h.1], by rw [h.2.1], ?_, by rw [h.2.2]⟩
  rw [h.2.2]
  simp

/- ------------------------------------------------------------------
src/api/routes/webhook.py  (Telegram update extraction and webhook)
------------------------------------------------------------------ -/

/-- A Telegram user object ("from" in the update JSON); optional fields are
the ones the extractor reads with a `.get` default. -/
structure TgUser where
  id : Int
  username : Option String
  first_name : Option String
  last_name : Option String
  language_code : Option String

/-- A Telegram chat object; the extractor indexes its "id" directly. -/
structure TgChat where
  id : Int

/-- A Telegram message object; "chat" and "from" are indexed directly by the
extractor (the Telegram schema guarantees them), the rest via `.get`. -/
structure TgMessage where
  message_id : Option Int
  chat : TgChat
  from_user : TgUser
  text : Option String
  date : Option Int

/-- A Telegram callback query; "message" and "from" are indexed directly. -/
structure TgCallback where
  id : Option String
  message : TgMessage
  from_user : TgUser
  data : Option String

/-- A Telegram update: at most one of "message" / "callback_query" is read,
with "message" taking priority. -/
structure TgUpdate where
  update_id : Option Int
  message : Option TgMessage
  callback_query : Option TgCallback

/-- The dictionary built by `extract_message_data`; keys that a branch does
not put into its dictionary are `none` here. -/
structure MessageData where
  update_id : Option Int
  message_id : Option Int
  chat_id : Int
  user_id : Int
  username : String
  first_name : String
  last_name : String
  text : Option String
  date : Option Int
  language_code : String
  message_type : String
  callback_query_id : Option String
  callback_data : Option String

/-- The body of `extract_message_data`: a "message" update yields a text/other
record, otherwise a "callback_query" update yields a callback record,
otherwise the result is None. -/
def extract_message_data (update : TgUpdate) : Option MessageData :=
  match update.message with
  | some message =>
    some { update_id := update.update_id,
           message_id := message.message_id,
           chat_id := message.chat.id,
           user_id := message.from_user.id,
           username := message.from_user.username.getD "",
           first_name := message.from_user.first_name.getD "",
           last_name := message.from_user.last_name.getD "",
           text := some (message.text.getD ""),
           date := message.date,
           language_code := message.from_user.language_code.getD "en",
           message_type := if message.text.isSome then "text" else "other",
           callback_query_id := none,
           callback_data := none }
  | none =>
    match update.callback_query with
    | some callback =>
      some { update_id := update.update_id,
             message_id := callback.message.message_id,
             chat_id := callback.message.chat.id,
             user_id := callback.from_user.id,
             username := callback.from_user.username.getD "",
             first_name := callback.from_user.first_name.getD "",
             last_name := callback.from_user.last_name.getD "",
             text := none,
             date := none,
             language_code := callback.from_user.language_code.getD "en",
             message_type := "callback",
             callback_query_id := callback.id,
             callback_data := some (callback.data.getD "") }
    | none => none

/-- C5: for a "message" update the extractor returns a record with the sender
id, chat id and text, message_type "text" exactly when the message has a text
field, and empty-string / "en" defaults for the optional fields; for a
"callback_query" update (no "message" key) the message_type is "callback";
with neither key the result is None. -/
theorem extract_message_data_spec (u : TgUpdate) :
    (∀ m, u.message = some m →
      ∃ d, extract_message_data u = some d ∧
        d.user_id = m.from_user.id ∧
        d.chat_id = m.chat.id ∧
        d.text = some (m.text.getD "") ∧
        (d.message_type = "text" ↔ m.text.isSome = true) ∧
        d.username = m.from_user.username.getD "" ∧
        d.first_name = m.from_user.first_name.getD "" ∧
        d.language_code = m.from_user.language_code.getD "en") ∧
    (∀ cb, u.message = none → u.callback_query = some cb →
      ∃ d, extract_message_data u = some d ∧
        d.message_type = "callback" ∧
        d.user_id = cb.from_user.id ∧
        d.chat_id = cb.message.chat.id) ∧
    (u.message = none → u.callback_query = none → extract_message_data u = none) := by
  obtain ⟨uid, msg, cbq⟩ := u
  refine ⟨?_, ?_, ?_⟩
  · rintro m rfl
    refine ⟨_, rfl, rfl, rfl, rfl, ?_, rfl, rfl, rfl⟩
    rcases m.text with _ | s <;> simp
  · rintro cb rfl rfl
    exact ⟨_, rfl, rfl, rfl, rfl⟩
  · rintro rfl rfl
    rfl

/-- Witness for C5 at a concrete text-message update. -/
theorem extract_message_data_spec_witness :
    ∃ d, extract_message_data
        { update_id := some 1,
          message := some { message_id := some 2,
                            chat := { id := 3 },
                            from_user := { id := 7, username := none,
                                           first_name := some "Amal",
                                           last_name := none,
                                           language_code := none },
                            text := some "hi",
                            date := none },
          callback_query := none } = some d ∧
      d.user_id = 7 ∧ d.chat_id = 3 ∧ d.text = some "hi" ∧
      d.message_type = "text" ∧ d.username = "" ∧ d.language_code = "en" := by
  obtain ⟨d, hd, h1, h2, h3, h4, h5, h6, h7⟩ :=
    (extract_message_data_spec
      { update_id := some 1,
        message := some { message_id := some 2,
                          chat := { id := 3 },
                          from_user := { id := 7, username := none,
                                         first_name := some "Amal",
                                         last_name := none,
                                         language_code := none },
                          text := some "hi",
                          date := none },
        callback_query := none }).1
      { message_id := some 2,
        chat := { id := 3 },
        from_user := { id := 7, username := none, first_name := some "Amal",
                       last_name := none, language_code := none },
        text := some "hi",
        date := none } rfl
  exact ⟨d, hd, h1, h2, h3, h4.mpr rfl, h5, h7⟩

/-- The HTTP response of the webhook endpoint: the status code and the body
fields "ok" and "description" (a missing description is `none`). -/
structure WebhookResponse where
  status_code : Nat
  ok : Bool
  description : Option String
  deriving DecidableEq

/-- The body of `telegram_webhook`, over the inputs that decide its control
flow: `debug` is `settings.DEBUG`, `signature_valid` is the result of
`verify_telegram_webhook` on the raw body and header, and `parsed` is the
outcome of reading and JSON-parsing the request body. The FastAPI
`JSONResponse` defaults to status 200. The `HTTPException(401)` raised on a
failed signature check is a subclass of `Exception`, so the blanket
`except Exception` of the endpoint catches it and answers 200 "Error processed";
every other failure inside the `try` block lands in the same handler.
Message processing is queued as a background task and cannot affect the
response. -/
def telegram_webhook (debug : Bool) (signature_valid : Bool)
    (parsed : Except String TgUpdate) : WebhookResponse :=
  if !debug && !signature_valid then
    { status_code := 200, ok := true, description := some "Error processed" }
  else
    match parsed with
    | .error _ =>
      { status_code := 200, ok := true, description := some "Error processed" }
    | .ok update =>
      match extract_message_data update with
      | none =>
        { status_code := 200, ok := true, description := some "No message to process" }
      | some _ => { status_code := 200, ok := true, description := none }

/-- C8: every request to the Telegram webhook endpoint is answered with HTTP
200 and body ok = true — including malformed bodies and, in non-debug mode,
failed signature verification, whose 401 HTTPException is swallowed by the
blanket exception handler of the endpoint into the 200 "Error processed" reply. -/
theorem telegram_webhook_always_ok (debug signature_valid : Bool)
    (parsed : Except String TgUpdate) :
    (telegram_webhook debug signature_valid parsed).status_code = 200 ∧
    (telegram_webhook debug signature_valid parsed).ok = true ∧
    (debug = false → signature_valid = false →
      telegram_webhook debug signature_valid parsed =
        { status_code := 200, ok := true, description := some "Error processed" }) := by
  rcases parsed with e | u
  · cases debug <;> cases signature_valid <;> simp [telegram_webhook]
  · rcases h : extract_message_data u with _ | d <;>
      cases debug <;> cases signature_valid <;> simp [telegram_webhook, h]

/-- Witness for C8: with debug off and an invalid signature the endpoint
still answers 200 ok (the 401 never escapes). -/
theorem telegram_webhook_always_ok_witness :
    telegram_webhook false false (Except.error "bad json") =
      { status_code := 200, ok := true, description := some "Error processed" } :=
  (telegram_webhook_always_ok false false (Except.error "bad json")).2.2 rfl rfl

/- ------------------------------------------------------------------
src/translations/i18n.py  (TranslationManager.translate)
------------------------------------------------------------------ -/

/-- The `supported_languages` list of `TranslationManager`. -/
def supported_languages : List String := ["en", "ar", "ko"]

/-- The `default_language` of `TranslationManager`. -/
def default_language : String := "en"

/-- The body of `TranslationManager.translate` (named `i18n_translate` here, since Mathlib already declares a root `translate`) for a call without format
variables. `tables lang key` models `self.translations.get(lang, {}).get(key,
"")`: the loaded per-language JSON tables, with the empty string standing for
a missing entry (falsy in Python either way). The final `str.format` step is
the identity when no kwargs are passed and is elided. -/
def i18n_translate (tables : String → String → String) (key language : String) : String :=
  let lang := if language ∈ supported_languages then language else default_language
  let text1 := tables lang key
  let text2 := if text1 = "" ∧ lang ≠ default_language then tables default_language key
               else text1
  if text2 = "" then key else text2

/-- C7: `translate` is total and resolves in a fixed fallback order: an
unsupported language is treated as the default "en"; a non-empty entry in the
requested language wins, else the entry of the default language, else the key
itself is returned. -/
theorem translate_spec (tables : String → String → String) (key language : String) :
    (language ∉ supported_languages →
      i18n_translate tables key language = i18n_translate tables key "en") ∧
    (language ∈ supported_languages →
      (tables language key ≠ "" →
        i18n_translate tables key language = tables language key) ∧
      (tables language key = "" → tables "en" key ≠ "" →
        i18n_translate tables key language = tables "en" key) ∧
      (tables language key = "" → tables "en" key = "" →
        i18n_translate tables key language = key)) := by
  constructor
  · intro hns
    simp only [i18n_translate, default_language]
    rw [if_neg hns, if_pos (show ("en" : String) ∈ supported_languages by decide)]
  · intro hs
    refine ⟨?_, ?_, ?_⟩
    · intro hne
      simp only [i18n_translate, default_language]
      have hc1 : ¬(tables language key = "" ∧ language ≠ "en") := fun hand => hne hand.1
      rw [if_pos hs, if_neg hc1, if_neg hne]
    · intro he hdne
      simp only [i18n_translate, default_language]
      rw [if_pos hs]
      by_cases hl : language = "en"
      · exfalso
        rw [hl] at he
        exact hdne he
      · have hc1 : tables language key = "" ∧ language ≠ "en" := ⟨he, hl⟩
        rw [if_pos hc1, if_neg hdne]
    · intro he hee
      simp only [i18n_translate, default_language]
      rw [if_pos hs]
      by_cases hl : language = "en"
      · have hc1 : ¬(tables language key = "" ∧ language ≠ "en") := fun hand => hand.2 hl
        rw [if_neg hc1, if_pos he]
      · have hc1 : tables language key = "" ∧ language ≠ "en" := ⟨he, hl⟩
        rw [if_pos hc1, if_pos hee]

/-- Witness for C7 over a concrete two-entry table: direct hit in Arabic,
fallback to English for the unsupported "fr", and key echo for a missing
entry. -/
theorem translate_spec_witness :
    i18n_translate
      (fun l k => if l = "ar" ∧ k = "greet" then "marhaba"
                  else if l = "en" ∧ k = "greet" then "hello" else "")
      "greet" "ar" = "marhaba" ∧
    i18n_translate
      (fun l k => if l = "ar" ∧ k = "greet" then "marhaba"
                  else if l = "en" ∧ k = "greet" then "hello" else "")
      "greet" "fr" = "hello" ∧
    i18n_translate
      (fun l k => if l = "ar" ∧ k = "greet" then "marhaba"
                  else if l = "en" ∧ k = "greet" then "hello" else "")
      "missing" "ko" = "missing" := by
  refine ⟨?_, ?_, ?_⟩
  · exact ((translate_spec
      (fun l k => if l = "ar" ∧ k = "greet" then "marhaba"
                  else if l = "en" ∧ k = "greet" then "hello" else "")
      "greet" "ar").2 (by decide)).1 (by decide)
  · rw [(translate_spec
      (fun l k => if l = "ar" ∧ k = "greet" then "marhaba"
                  else if l = "en" ∧ k = "greet" then "hello" else "")
      "greet" "fr").1 (by decide)]
    exact ((translate_spec
      (fun l k => if l = "ar" ∧ k = "greet" then "marhaba"
                  else if l = "en" ∧ k = "greet" then "hello" else "")
      "greet" "en").2 (by decide)).1 (by decide)
  · exact (((translate_spec
      (fun l k => if l = "ar" ∧ k = "greet" then "marhaba"
                  else if l = "en" ∧ k = "greet" then "hello" else "")
      "missing" "ko").2 (by decide)).2.2 (by decide) (by decide))

/- ------------------------------------------------------------------
src/agents/review_analyst.py  (ReviewAnalystAgent.aggregate_review_insights)
------------------------------------------------------------------ -/

/-- The fields of the aggregate built by
`ReviewAnalystAgent.aggregate_review_insights` that depend on which reviews
were analyzed: the per-video analyses and the reported
`total_reviews_analyzed` count. The remaining fields (overall sentiment, top
clinics, common themes, averages, recommendations, date) are functions of
`analyses` and are elided. -/
structure ReviewAggregate (α : Type) where
  analyses : List α
  total_reviews_analyzed : Nat

/-- The body of `ReviewAnalystAgent.aggregate_review_insights`: the remote
YouTube searches in Arabic and English are parameters (lists of video ids),
per-video analysis is the parameter `analyze_video`, and `num_reviews` is the
requested count (a natural number; the Python default is 10). Arabic results
are concatenated before English ones, the concatenation is truncated to the
first `num_reviews` entries, and each surviving review is analyzed. -/
def aggregate_review_insights {α : Type} (analyze_video : String → α)
    (ar_reviews en_reviews : List String) (num_reviews : Nat) : ReviewAggregate α :=
  let all_reviews := ar_reviews ++ en_reviews
  let limited := all_reviews.take num_reviews
  let analyses := limited.map analyze_video
  { analyses := analyses, total_reviews_analyzed := analyses.length }

/-- C10: the aggregator analyzes at most `num_reviews` reviews: the analyzed
list is the Arabic-before-English concatenation truncated to `num_reviews`,
and `total_reviews_analyzed` is exactly
`min num_reviews (|arabic| + |english|)`, hence at most `num_reviews`. -/
theorem aggregate_review_insights_spec {α : Type} (analyze_video : String → α)
    (ar_reviews en_reviews : List String) (num_reviews : Nat) :
    (aggregate_review_insights analyze_video ar_reviews en_reviews
        num_reviews).total_reviews_analyzed
      = min num_reviews (ar_reviews.length + en_reviews.length) ∧
    (aggregate_review_insights analyze_video ar_reviews en_reviews num_reviews).analyses
      = ((ar_reviews ++ en_reviews).take num_reviews).map analyze_video ∧
    (aggregate_review_insights analyze_video ar_reviews en_reviews
        num_reviews).total_reviews_analyzed ≤ num_reviews := by
  refine ⟨?_, rfl, ?_⟩
  · simp [aggregate_review_insights]
  · simp only [aggregate_review_insights, List.length_map, List.length_take]
    exact Nat.min_le_left _ _

/-- Witness for C10: two Arabic and one English review, truncated to two,
keeping the Arabic ones first. -/
theorem aggregate_review_insights_spec_witness :
    (aggregate_review_insights (fun v => v) ["a1", "a2"] ["e1"] 2).total_reviews_analyzed = 2 ∧
    (aggregate_review_insights (fun v => v) ["a1", "a2"] ["e1"] 2).analyses = ["a1", "a2"] := by
  have h := aggregate_review_insights_spec (fun v : String => v) ["a1", "a2"] ["e1"] 2
  refine ⟨?_, ?_⟩
  · rw [h.1]
    decide
  · rw [h.2.1]
    rfl

/-- Counterexample for C2 as stated: the apology of
`AhrieTeamOrchestratorV2.process` is not one fixed string — two calls that
differ only in the language code return different canned apologies, Arabic
for "ar" and English otherwise. -/
theorem process_error_apology_not_fixed :
    (team_process "ar" (Except.error "boom")).content ≠
      (team_process "en" (Except.error "boom")).content := by
  decide
